import Mathlib

/-!
Verification of the TrueNAS SCALE fan-speed monitor
(`scripts/fan_control/fan_speed_monitor.py`).

The Python source is shallowly embedded: every parser becomes an executable
Lean function over `List Char` / `String`, the stateful line scan becomes
explicit state passing, and fallible code returns `Except`.  Machine floats
are modelled as exact rationals (every numeric claim is stated at the level
of decimal values, where `float` arithmetic on the involved literals is
exact).  A `subprocess.run` invocation is modelled by a `RawResult` sum
recording success with captured stdout, a timeout, or a missing binary, and
the append-only log by an explicit map from path to appended lines.
-/

/-- Splitting a character list at every occurrence of a separator character.
Mirrors Python `str.split(sep)` for a one-character separator: splitting the
empty string gives one empty segment, and boundary separators produce empty
segments. -/
def splitCh (sep : Char) : List Char → List (List Char)
  | [] => [[]]
  | c :: cs =>
    let r := splitCh sep cs
    if c = sep then [] :: r else (c :: r.headD []) :: r.tail

/-- Python `s.split(sep)` for a one-character separator. -/
def pySplit (s : String) (sep : Char) : List String :=
  (splitCh sep s.data).map String.mk

/-- `p` is a prefix of `s`, on character lists. -/
def isPrefixList : List Char → List Char → Bool
  | [], _ => true
  | _ :: _, [] => false
  | p :: ps, c :: cs => (p == c) && isPrefixList ps cs

/-- Substring test on character lists: `containsList p s` is Python
`p in s`. -/
def containsList (p : List Char) : List Char → Bool
  | [] => p.isEmpty
  | c :: cs => isPrefixList p (c :: cs) || containsList p cs

/-- Python `pat in s` on strings. -/
def pyContains (s pat : String) : Bool := containsList pat.data s.data

/-- Python `str.strip()` restricted to ASCII whitespace (the tool output
never contains the extra Unicode spaces Python would also strip). -/
def pyStrip (s : String) : String :=
  String.mk (((s.data.dropWhile Char.isWhitespace).reverse.dropWhile Char.isWhitespace).reverse)

/-- Numeric value of a digit list, most significant digit first. -/
def natOfDigits (ds : List Char) : Nat :=
  ds.foldl (fun a c => 10 * a + (c.toNat - 48)) 0

/-- Digits with optional single underscores between digits, as accepted by
Python `int` after the sign; accumulates the value, `none` on any malformed
character. -/
def pyIntGo : Nat → List Char → Option Nat
  | acc, [] => some acc
  | acc, '_' :: c :: cs => if c.isDigit then pyIntGo (10 * acc + (c.toNat - 48)) cs else none
  | acc, c :: cs => if c.isDigit then pyIntGo (10 * acc + (c.toNat - 48)) cs else none

/-- Python `int(s)` on thermal-zone text: surrounding whitespace stripped,
an optional sign, then decimal digits with optional single underscores
between digits.  The remaining `int` forms (Unicode digits, base prefixes)
do not occur in that text and are omitted. -/
def pyIntOf (s : String) : Option Int :=
  match (pyStrip s).data with
  | '+' :: c :: cs => if c.isDigit then (pyIntGo (c.toNat - 48) cs).map Int.ofNat else none
  | '-' :: c :: cs =>
    if c.isDigit then (pyIntGo (c.toNat - 48) cs).map (fun n => -(n : Int)) else none
  | c :: cs => if c.isDigit then (pyIntGo (c.toNat - 48) cs).map Int.ofNat else none
  | [] => none

/-- Body of a Python `float` literal after the optional sign: decimal digits
with an optional fractional part.  Exponent, `inf`/`nan` and underscore
forms do not occur in `sensors` output and are omitted. -/
def pyFloatBody (cs : List Char) : Option ℚ :=
  let ip := cs.takeWhile Char.isDigit
  match cs.dropWhile Char.isDigit with
  | [] => if ip.isEmpty then none else some ((natOfDigits ip : ℕ) : ℚ)
  | '.' :: rest2 =>
    let fp := rest2.takeWhile Char.isDigit
    if (rest2.dropWhile Char.isDigit).isEmpty then
      if ip.isEmpty && fp.isEmpty then none
      else some (((natOfDigits ip : ℕ) : ℚ) + ((natOfDigits fp : ℕ) : ℚ) / (10 : ℚ) ^ fp.length)
    else none
  | _ => none

/-- Python `float(s)` (decimal subset, see `pyFloatBody`), with surrounding
whitespace stripped as `float` itself does. -/
def pyFloatOf (s : String) : Option ℚ :=
  match (pyStrip s).data with
  | '+' :: cs => pyFloatBody cs
  | '-' :: cs => (pyFloatBody cs).map Neg.neg
  | cs => pyFloatBody cs

/-- Association-list update with Python `dict` assignment semantics: replace
in place when the key is present, keeping its position, append otherwise. -/
def setKey {α : Type} : List (String × α) → String → α → List (String × α)
  | [], k, v => [(k, v)]
  | (k0, v0) :: m, k, v => if k = k0 then (k, v) :: m else (k0, v0) :: setKey m k v

/-- Association-list lookup (`dict` access and membership). -/
def alookup {α : Type} : List (String × α) → String → Option α
  | [], _ => none
  | (k0, v0) :: m, k => if k = k0 then some v0 else alookup m k

/-- Exceptions that can escape the embedded code. -/
inductive PyErr where
  /-- `UnboundLocalError` (a `NameError`): a local variable read before
  assignment. -/
  | nameError
  /-- `FileNotFoundError`: the invoked binary is missing. -/
  | fileNotFound
  deriving DecidableEq, Repr

/-- Outcome of one `subprocess.run` invocation: captured stdout on success,
or the two failure modes the script's handlers distinguish. -/
inductive RawResult where
  | ok (stdout : String)
  | timeout
  | notFound
  deriving DecidableEq, Repr

/-- Value extraction from a drive-temperature line:
`line.split('+')[1].split('°')[0]` fed to `float`, with `IndexError` and
`ValueError` mapped to `none` as by the source's inner `except` clause. -/
def parseTempValue (line : String) : Option ℚ :=
  match pySplit line '+' with
  | _ :: second :: _ => pyFloatOf ((pySplit second '°').headD "")
  | _ => none

/-- Scanner state of `get_drive_temperatures`: the accumulated `temps` dict
and the `device_id` local, `none` while that variable is still unbound. -/
structure DTState where
  temps : List (String × Option ℚ)
  device : Option String
  deriving Repr

/-- One loop iteration of `get_drive_temperatures` over a line.  Reading the
unbound `device_id` local on an orphan `temp1:` line raises
`UnboundLocalError`, which the source's `except` clause does not catch. -/
def dtStep (s : DTState) (line : String) : Except PyErr DTState :=
  if pyContains line "drivetemp-scsi" then
    let parts := pySplit line '-'
    if 3 ≤ parts.length then
      let id := parts.getLastD ""
      Except.ok ⟨setKey s.temps id none, some id⟩
    else Except.ok s
  else if pyContains line "temp1:" then
    match s.device with
    | none => Except.error PyErr.nameError
    | some id =>
      if id ≠ "" ∧ (alookup s.temps id).isSome then
        match parseTempValue line with
        | some v => Except.ok ⟨setKey s.temps id (some v), some id⟩
        | none => Except.ok s
      else Except.ok s
  else Except.ok s

/-- The scan loop of `get_drive_temperatures`. -/
def dtFold : DTState → List String → Except PyErr DTState
  | s, [] => Except.ok s
  | s, l :: ls =>
    match dtStep s l with
    | Except.ok s2 => dtFold s2 ls
    | Except.error e => Except.error e

/-- Scan of a drive dump given as lines, from a fresh state (`temps = {}`,
`device_id` unbound). -/
def dtParseLines (ls : List String) : Except PyErr (List (String × Option ℚ)) :=
  match dtFold ⟨[], none⟩ ls with
  | Except.ok s => Except.ok s.temps
  | Except.error e => Except.error e

/-- Parsing the captured `sensors -u` stdout. -/
def parseDriveText (t : String) : Except PyErr (List (String × Option ℚ)) :=
  dtParseLines (pySplit t '\n')

/-- `TrueNASSensor.get_drive_temperatures`: on a successful tool run the
stdout is scanned; `TimeoutExpired` and `FileNotFoundError` are caught and
yield the empty mapping (after a stderr diagnostic, not modelled here). -/
def get_drive_temperatures : RawResult → Except PyErr (List (String × Option ℚ))
  | RawResult.ok t => parseDriveText t
  | RawResult.timeout => Except.ok []
  | RawResult.notFound => Except.ok []

/-- Device id announced by a line, when the line is a complete device
header: it contains the `drivetemp-scsi` marker and splits into at least
three hyphen-delimited parts, the last being the id. -/
def lineHeaderId (l : String) : Option String :=
  if pyContains l "drivetemp-scsi" then
    let parts := pySplit l '-'
    if 3 ≤ parts.length then some (parts.getLastD "") else none
  else none

/-- Header ids of a dump, in order of appearance. -/
def headerIdsOf (ls : List String) : List String := ls.filterMap lineHeaderId

/-- Well-formedness of a drive dump relative to the stack of device ids
seen so far (most recent first): every marker line is a complete header
with a fresh non-empty id, and every `temp1:` line is preceded by some
header. -/
def wfFrom : List String → List String → Bool
  | _, [] => true
  | ids, l :: ls =>
    if pyContains l "drivetemp-scsi" then
      let parts := pySplit l '-'
      let id := parts.getLastD ""
      decide (3 ≤ parts.length) && decide (id ≠ "") && decide (id ∉ ids) && wfFrom (id :: ids) ls
    else if pyContains l "temp1:" then
      decide (ids ≠ []) && wfFrom ids ls
    else wfFrom ids ls

/-- Device-id stack accumulated by a scan (used to split well-formedness at
an append). -/
def accIds : List String → List String → List String
  | ids, [] => ids
  | ids, l :: ls =>
    if pyContains l "drivetemp-scsi" then accIds ((pySplit l '-').getLastD "" :: ids) ls
    else accIds ids ls

/-- `TrueNASSensor.get_cpu_temperature`: the shell pipeline delivers the
first line of the concatenated thermal-zone files (`head -1`); a non-empty
stripped line is parsed as a millidegree integer and divided by `1000.0`.
`TimeoutExpired` and `ValueError` are caught; `FileNotFoundError` is not in
the source's `except` tuple and escapes. -/
def get_cpu_temperature : RawResult → Except PyErr (Option ℚ)
  | RawResult.ok t =>
    let s := pyStrip ((pySplit t '\n').headD "")
    if s = "" then Except.ok none
    else
      match pyIntOf s with
      | some n => Except.ok (some ((n : ℚ) / 1000))
      | none => Except.ok none
  | RawResult.timeout => Except.ok none
  | RawResult.notFound => Except.error PyErr.fileNotFound

/-- The fixed recognized fan channels of `get_fan_status`. -/
def fanNames : List String := ["FAN1", "FAN2", "FAN3", "FAN4", "FANA", "FANB"]

/-- Length of the leading digit run. -/
def digitPrefixLen : List Char → Nat
  | [] => 0
  | c :: cs => if c.isDigit then digitPrefixLen cs + 1 else 0

/-- Leftmost match of the regex `(\d\x7b3,5\x7d)`: the first position from
which at least three digits run, matched greedily and truncated at five. -/
def firstRunAux : List Char → Option (List Char)
  | [] => none
  | c :: cs =>
    if 3 ≤ digitPrefixLen (c :: cs) then
      some ((c :: cs).take (min 5 (digitPrefixLen (c :: cs))))
    else firstRunAux cs

/-- `re.search(r'(\d\x7b3,5\x7d)', line)` followed by `int` on the matched
group. -/
def firstDigitRun (line : String) : Option Nat :=
  (firstRunAux line.data).map natOfDigits

/-- RPM contributed to channel `c` by one line, if any: the line must
contain the channel name and a 3–5 digit run. -/
def lineVal (c : String) (l : String) : Option Nat :=
  if pyContains l c then firstDigitRun l else none

/-- Inner loop of `get_fan_status` over the candidate channel names for one
line. -/
def fanLineAux : List String → List (String × Nat) → String → List (String × Nat)
  | [], m, _ => m
  | name :: ns, m, l =>
    fanLineAux ns
      (if pyContains l name then
        match firstDigitRun l with
        | some v => setKey m name v
        | none => m
      else m) l

/-- Processing of one SDR line. -/
def fanLine (m : List (String × Nat)) (l : String) : List (String × Nat) :=
  fanLineAux fanNames m l

/-- Outer loop of `get_fan_status` over the lines of the SDR dump. -/
def fanFold : List (String × Nat) → List String → List (String × Nat)
  | m, [] => m
  | m, l :: ls => fanFold (fanLine m l) ls

/-- `TrueNASSensor.get_fan_status`: `ipmitool sdr` stdout scanned per line;
`return fans if fans else None` collapses the empty dict to `None`;
`TimeoutExpired` and `FileNotFoundError` are caught and give `None`. -/
def get_fan_status : RawResult → Option (List (String × Nat))
  | RawResult.ok t =>
    let fans := fanFold [] (pySplit t '\n')
    if fans = [] then none else some fans
  | RawResult.timeout => none
  | RawResult.notFound => none

/-- A `datetime` value, restricted to the fields the script renders. -/
structure PyDateTime where
  year : Nat
  month : Nat
  day : Nat
  hour : Nat
  minute : Nat
  second : Nat
  deriving DecidableEq, Repr

/-- Zero-padding to two digits, as `strftime` and `isoformat` render
calendar fields. -/
def pad2 (n : Nat) : String := if n < 10 then "0" ++ toString n else toString n

/-- Zero-padding to four digits, for the year. -/
def pad4 (n : Nat) : String :=
  if n < 10 then "000" ++ toString n
  else if n < 100 then "00" ++ toString n
  else if n < 1000 then "0" ++ toString n
  else toString n

/-- `datetime.strftime('%Y%m%d')`. -/
def strftimeYmd (d : PyDateTime) : String := pad4 d.year ++ pad2 d.month ++ pad2 d.day

/-- `datetime.isoformat()`, to second precision (the sub-second field plays
no role in any claim). -/
def pyIsoformat (d : PyDateTime) : String :=
  pad4 d.year ++ "-" ++ pad2 d.month ++ "-" ++ pad2 d.day ++ "T" ++
    pad2 d.hour ++ ":" ++ pad2 d.minute ++ ":" ++ pad2 d.second

/-- `TrueNASSensor` instance state: the log directory and the log-file path
frozen by `__init__`. -/
structure TrueNASSensor where
  log_dir : String
  log_file : String
  deriving DecidableEq, Repr

/-- `TrueNASSensor.__init__(log_dir)` run while the constructor's
`datetime.now()` reads `ctorNow`: the log-file name is fixed once and for
all from the construction-time date. -/
def mkSensor (log_dir : String) (ctorNow : PyDateTime) : TrueNASSensor :=
  ⟨log_dir, log_dir ++ "/fan_monitor_" ++ strftimeYmd ctorNow ++ ".log"⟩

/-- The file system, as a map from path to the lines appended so far. -/
def FS : Type := String → List String

/-- A file system with every file empty. -/
def emptyFS : FS := fun _ => []

/-- Opening a file in mode `'a'` and writing one line: strictly appended,
all other paths untouched. -/
def appendFS (fs : FS) (p : String) (line : String) : FS :=
  fun q => if q = p then fs p ++ [line] else fs q

/-- One status snapshot: the `status` dict built by `log_status`. -/
structure StatusSnapshot where
  timestamp : String
  drive_temps : List (String × Option ℚ)
  cpu_temp : Option ℚ
  fan_status : Option (List (String × Nat))

/-- JSON rendering of an optional float. -/
def jsonOfOptRat : Option ℚ → String
  | none => "null"
  | some q => toString q

/-- JSON rendering of the drive-temperature dict. -/
def jsonOfDriveTemps (m : List (String × Option ℚ)) : String :=
  "\x7b" ++ String.intercalate ", "
    (m.map (fun p => "\x22" ++ p.1 ++ "\x22: " ++ jsonOfOptRat p.2)) ++ "\x7d"

/-- JSON rendering of the optional fan dict. -/
def jsonOfFans : Option (List (String × Nat)) → String
  | none => "null"
  | some m =>
    "\x7b" ++ String.intercalate ", "
      (m.map (fun p => "\x22" ++ p.1 ++ "\x22: " ++ toString p.2)) ++ "\x7d"

/-- `json.dumps(status)`: one self-contained record line. -/
def serializeSnapshot (s : StatusSnapshot) : String :=
  "\x7b\x22timestamp\x22: \x22" ++ s.timestamp ++ "\x22, \x22drive_temps\x22: " ++
    jsonOfDriveTemps s.drive_temps ++ ", \x22cpu_temp\x22: " ++ jsonOfOptRat s.cpu_temp ++
    ", \x22fan_status\x22: " ++ jsonOfFans s.fan_status ++ "\x7d"

/-- Result of one `log_status` poll: the returned snapshot, the file system
after the append, and the warnings printed to stderr by the logger (console
rendering and the readers' own diagnostics are not modelled). -/
structure LogResult where
  status : StatusSnapshot
  fs : FS
  stderr : List String

/-- The logger's stderr warning on a failed write. -/
def writeWarningMsg : String := "Warning: Could not write to log file"

/-- `TrueNASSensor.log_status`, with the three tool invocations and the
wall clock passed in explicitly and the log write's success as `writeOk`.
An exception escaping a getter propagates; an `IOError` on the append is
caught and reported as a warning, and the snapshot is returned either
way. -/
def log_status (sensor : TrueNASSensor) (now : PyDateTime)
    (drive cpu fan : RawResult) (writeOk : Bool) (fs : FS) : Except PyErr LogResult :=
  match get_drive_temperatures drive with
  | Except.error e => Except.error e
  | Except.ok dt =>
    match get_cpu_temperature cpu with
    | Except.error e => Except.error e
    | Except.ok ct =>
      let status : StatusSnapshot := ⟨pyIsoformat now, dt, ct, get_fan_status fan⟩
      if writeOk then
        Except.ok ⟨status, appendFS fs sensor.log_file (serializeSnapshot status), []⟩
      else
        Except.ok ⟨status, fs, [writeWarningMsg]⟩

/-- A `datetime.now()` reading on 2024-01-01. -/
def dateJan1 : PyDateTime := ⟨2024, 1, 1, 9, 0, 0⟩

/-- A `datetime.now()` reading on 2024-01-02. -/
def dateJan2Noon : PyDateTime := ⟨2024, 1, 2, 12, 0, 0⟩

/-- A sensor constructed with the default log directory on 2024-01-01. -/
def sensorJan1 : TrueNASSensor := mkSensor "/var/log/fan_control" dateJan1

/-- A primary-temperature line in the exact format documented in the
source. -/
def tempLine41 : String := "temp1:        +41.0°C  (low  =  +0.0°C, high = +60.0°C)"

/-- A well-formed one-device dump: header for device `f0` followed by its
temperature line. -/
def scenario1Text : String := "drivetemp-scsi-0-f0\n" ++ tempLine41

theorem alookup_setKey_self {α : Type} (m : List (String × α)) (k : String) (v : α) :
    alookup (setKey m k v) k = some v := by
  induction m with
  | nil => simp [setKey, alookup]
  | cons p m ih =>
    obtain ⟨k0, v0⟩ := p
    by_cases h : k = k0
    · simp [setKey, alookup, h]
    · simp [setKey, alookup, h, ih]

theorem alookup_setKey_ne {α : Type} (m : List (String × α)) (k q : String) (v : α)
    (h : q ≠ k) : alookup (setKey m k v) q = alookup m q := by
  induction m with
  | nil => simp [setKey, alookup, h]
  | cons p m ih =>
    obtain ⟨k0, v0⟩ := p
    by_cases h0 : k = k0
    · subst h0
      simp [setKey, alookup, h]
    · by_cases h1 : q = k0 <;> simp [setKey, alookup, h0, h1, ih]

theorem mem_of_mem_setKey {α : Type} {m : List (String × α)} {k a : String} {v b : α}
    (h : (a, b) ∈ setKey m k v) : (a, b) ∈ m ∨ a = k := by
  induction m with
  | nil =>
    simp [setKey] at h
    exact Or.inr h.1
  | cons p m ih =>
    obtain ⟨k0, v0⟩ := p
    by_cases h0 : k = k0
    · simp [setKey, h0] at h
      rcases h with h | h
      · exact Or.inr (h.1.trans h0.symm)
      · exact Or.inl (List.mem_cons_of_mem _ h)
    · simp [setKey, h0] at h
      rcases h with h | h
      · exact Or.inl (by simp [h])
      · rcases ih h with h2 | h2
        · exact Or.inl (List.mem_cons_of_mem _ h2)
        · exact Or.inr h2

theorem map_fst_setKey_of_isSome {α : Type} {m : List (String × α)} {k : String} (v : α)
    (h : (alookup m k).isSome) : (setKey m k v).map Prod.fst = m.map Prod.fst := by
  induction m with
  | nil => simp [alookup] at h
  | cons p m ih =>
    obtain ⟨k0, v0⟩ := p
    by_cases h0 : k = k0
    · simp [setKey, h0]
    · simp [alookup, h0] at h
      simp [setKey, h0, ih h]

theorem map_fst_setKey_of_none {α : Type} {m : List (String × α)} {k : String} (v : α)
    (h : alookup m k = none) : (setKey m k v).map Prod.fst = m.map Prod.fst ++ [k] := by
  induction m with
  | nil => simp [setKey]
  | cons p m ih =>
    obtain ⟨k0, v0⟩ := p
    by_cases h0 : k = k0
    · simp [alookup, h0] at h
    · simp [alookup, h0] at h
      simp [setKey, h0, ih h]

theorem alookup_eq_none_iff {α : Type} (m : List (String × α)) (k : String) :
    alookup m k = none ↔ k ∉ m.map Prod.fst := by
  induction m with
  | nil => simp [alookup]
  | cons p m ih =>
    obtain ⟨k0, v0⟩ := p
    by_cases h0 : k = k0
    · simp [alookup, h0]
    · simp [alookup, h0, ih]

theorem dtStep_noop (s : DTState) (l : String)
    (h1 : pyContains l "drivetemp-scsi" = false) (h2 : pyContains l "temp1:" = false) :
    dtStep s l = Except.ok s := by
  simp [dtStep, h1, h2]

theorem dtFold_noop (ls : List String) (s : DTState)
    (h : ∀ l ∈ ls, pyContains l "drivetemp-scsi" = false ∧ pyContains l "temp1:" = false) :
    dtFold s ls = Except.ok s := by
  induction ls with
  | nil => rfl
  | cons l ls ih =>
    have h0 := h l (by simp)
    simp only [dtFold, dtStep_noop s l h0.1 h0.2]
    exact ih fun x hx => h x (by simp [hx])

theorem dtFold_append (xs ys : List String) (s : DTState) :
    dtFold s (xs ++ ys) =
      match dtFold s xs with
      | Except.ok s2 => dtFold s2 ys
      | Except.error e => Except.error e := by
  induction xs generalizing s with
  | nil => simp [dtFold]
  | cons l xs ih =>
    simp only [List.cons_append, dtFold]
    cases dtStep s l with
    | ok s2 => exact ih s2
    | error e => rfl

theorem dtStep_frozen (s s1 : DTState) (l : String) (d : String)
    (h : dtStep s l = Except.ok s1) (hdev : s.device ≠ some d)
    (hl : lineHeaderId l ≠ some d) :
    alookup s1.temps d = alookup s.temps d ∧ s1.device ≠ some d := by
  by_cases hm : pyContains l "drivetemp-scsi"
  · by_cases hp : 3 ≤ (pySplit l '-').length
    · have hne : (pySplit l '-').getLast?.getD "" ≠ d := by
        intro he
        exact hl (by simp [lineHeaderId, hm, hp, List.getLastD_eq_getLast?, he])
      simp [dtStep, hm, hp] at h
      subst h
      exact ⟨alookup_setKey_ne _ _ _ _ (Ne.symm hne), by simp [hne]⟩
    · simp [dtStep, hm, hp] at h
      subst h
      exact ⟨rfl, hdev⟩
  · by_cases ht : pyContains l "temp1:"
    · cases hdev0 : s.device with
      | none => simp [dtStep, hm, ht, hdev0] at h
      | some id =>
        have hid : id ≠ d := fun he => hdev (by rw [hdev0, he])
        by_cases hc : id ≠ "" ∧ (alookup s.temps id).isSome
        · cases hv : parseTempValue l with
          | some v =>
            simp [dtStep, hm, ht, hdev0, hc, hv] at h
            subst h
            exact ⟨alookup_setKey_ne _ _ _ _ (Ne.symm hid), by simp [hid]⟩
          | none =>
            simp [dtStep, hm, ht, hdev0, hc, hv] at h
            subst h
            exact ⟨rfl, hdev⟩
        · simp [dtStep, hm, ht, hdev0, hc] at h
          subst h
          exact ⟨rfl, hdev⟩
    · simp [dtStep, hm, ht] at h
      subst h
      exact ⟨rfl, hdev⟩

theorem dtFold_frozen (ls : List String) (s s2 : DTState) (d : String)
    (hrun : dtFold s ls = Except.ok s2) (hdev : s.device ≠ some d)
    (hids : ∀ l ∈ ls, lineHeaderId l ≠ some d) :
    alookup s2.temps d = alookup s.temps d ∧ s2.device ≠ some d := by
  induction ls generalizing s with
  | nil =>
    simp only [dtFold] at hrun
    cases hrun
    exact ⟨rfl, hdev⟩
  | cons l ls ih =>
    simp only [dtFold] at hrun
    cases hstep : dtStep s l with
    | error e => rw [hstep] at hrun; cases hrun
    | ok s1 =>
      rw [hstep] at hrun
      have h1 := dtStep_frozen s s1 l d hstep hdev (hids l (by simp))
      have h2 := ih s1 hrun h1.2 fun x hx => hids x (by simp [hx])
      exact ⟨h2.1.trans h1.1, h2.2⟩

theorem accIds_append (xs ys ids : List String) :
    accIds ids (xs ++ ys) = accIds (accIds ids xs) ys := by
  induction xs generalizing ids with
  | nil => simp [accIds]
  | cons l xs ih => by_cases hm : pyContains l "drivetemp-scsi" <;> simp [accIds, hm, ih]

theorem accIds_no_marker (ls ids : List String)
    (h : ∀ l ∈ ls, pyContains l "drivetemp-scsi" = false) :
    accIds ids ls = ids := by
  induction ls generalizing ids with
  | nil => rfl
  | cons l ls ih =>
    have h0 := h l (by simp)
    simp only [accIds, h0, Bool.false_eq_true, if_false]
    exact ih _ fun x hx => h x (by simp [hx])

theorem wfFrom_append (xs ys ids : List String) :
    wfFrom ids (xs ++ ys) = (wfFrom ids xs && wfFrom (accIds ids xs) ys) := by
  induction xs generalizing ids with
  | nil => simp [wfFrom, accIds]
  | cons l xs ih =>
    by_cases hm : pyContains l "drivetemp-scsi"
    · simp [wfFrom, accIds, hm, ih, Bool.and_assoc]
    · by_cases ht : pyContains l "temp1:"
      · simp [wfFrom, accIds, hm, ht, ih, Bool.and_assoc]
      · simp [wfFrom, accIds, hm, ht, ih]

theorem wfFrom_fresh (ls ids : List String) (hwf : wfFrom ids ls = true) :
    ∀ l ∈ ls, ∀ i, lineHeaderId l = some i → i ∉ ids := by
  induction ls generalizing ids with
  | nil => simp
  | cons l ls ih =>
    intro x hx i hi
    by_cases hm : pyContains l "drivetemp-scsi"
    · simp only [wfFrom, hm, if_true, Bool.and_eq_true, decide_eq_true_eq,
        List.getLastD_eq_getLast?] at hwf
      obtain ⟨⟨⟨hp, hne⟩, hmem⟩, hwf2⟩ := hwf
      rcases List.mem_cons.mp hx with rfl | hx2
      · simp [lineHeaderId, hm, hp, List.getLastD_eq_getLast?] at hi
        exact hi ▸ hmem
      · have h3 := ih _ hwf2 x hx2 i hi
        exact fun hin => h3 (List.mem_cons_of_mem _ hin)
    · by_cases ht : pyContains l "temp1:"
      · simp only [wfFrom, hm, ht, Bool.false_eq_true, if_false, if_true,
          Bool.and_eq_true, decide_eq_true_eq] at hwf
        rcases List.mem_cons.mp hx with rfl | hx2
        · simp [lineHeaderId, hm] at hi
        · exact ih _ hwf.2 x hx2 i hi
      · simp only [wfFrom, hm, ht, Bool.false_eq_true, if_false] at hwf
        rcases List.mem_cons.mp hx with rfl | hx2
        · simp [lineHeaderId, hm] at hi
        · exact ih _ hwf x hx2 i hi

theorem dtFold_wf_run (ls : List String) : ∀ (ids : List String) (s : DTState),
    wfFrom ids ls = true → ids = (s.temps.map Prod.fst).reverse →
    (ids ≠ [] → s.device.isSome) →
    ∃ s2, dtFold s ls = Except.ok s2 ∧
      s2.temps.map Prod.fst = s.temps.map Prod.fst ++ headerIdsOf ls := by
  induction ls with
  | nil =>
    intro ids s _ _ _
    exact ⟨s, rfl, by simp [headerIdsOf]⟩
  | cons l ls ih =>
    intro ids s hwf hids hdev
    by_cases hm : pyContains l "drivetemp-scsi"
    · simp only [wfFrom, hm, if_true, Bool.and_eq_true, decide_eq_true_eq,
        List.getLastD_eq_getLast?] at hwf
      obtain ⟨⟨⟨hp, hne⟩, hmem⟩, hwf2⟩ := hwf
      have hstep : dtStep s l = Except.ok
          ⟨setKey s.temps ((pySplit l '-').getLast?.getD "") none,
            some ((pySplit l '-').getLast?.getD "")⟩ := by
        simp [dtStep, hm, hp, List.getLastD_eq_getLast?]
      have hlook : alookup s.temps ((pySplit l '-').getLast?.getD "") = none := by
        rw [alookup_eq_none_iff]
        intro hk
        exact hmem (by rw [hids, List.mem_reverse]; exact hk)
      have hkeys : (setKey s.temps ((pySplit l '-').getLast?.getD "") none).map Prod.fst
          = s.temps.map Prod.fst ++ [(pySplit l '-').getLast?.getD ""] :=
        map_fst_setKey_of_none _ hlook
      obtain ⟨s2, hrun2, hkeys2⟩ := ih ((pySplit l '-').getLast?.getD "" :: ids)
        ⟨setKey s.temps ((pySplit l '-').getLast?.getD "") none,
          some ((pySplit l '-').getLast?.getD "")⟩
        hwf2 (by rw [hkeys, List.reverse_append]; simp [hids]) (fun _ => rfl)
      refine ⟨s2, ?_, ?_⟩
      · simp only [dtFold, hstep]
        exact hrun2
      · rw [hkeys2]
        have hhd : headerIdsOf (l :: ls) = (pySplit l '-').getLast?.getD "" :: headerIdsOf ls := by
          simp [headerIdsOf, lineHeaderId, hm, hp, List.getLastD_eq_getLast?]
        rw [hhd, hkeys, List.append_assoc]
        rfl
    · by_cases ht : pyContains l "temp1:"
      · simp only [wfFrom, hm, ht, Bool.false_eq_true, if_false, if_true, Bool.and_eq_true,
          decide_eq_true_eq] at hwf
        obtain ⟨hne, hwf2⟩ := hwf
        obtain ⟨d0, hd0⟩ := Option.isSome_iff_exists.mp (hdev hne)
        have hhd : headerIdsOf (l :: ls) = headerIdsOf ls := by
          simp [headerIdsOf, lineHeaderId, hm]
        by_cases hc : d0 ≠ "" ∧ (alookup s.temps d0).isSome
        · cases hv : parseTempValue l with
          | some v =>
            have hstep : dtStep s l = Except.ok ⟨setKey s.temps d0 (some v), some d0⟩ := by
              simp [dtStep, hm, ht, hd0, hc, hv]
            have hkeys0 : (setKey s.temps d0 (some v)).map Prod.fst = s.temps.map Prod.fst :=
              map_fst_setKey_of_isSome _ hc.2
            obtain ⟨s2, hrun2, hkeys2⟩ := ih ids ⟨setKey s.temps d0 (some v), some d0⟩ hwf2
              (by rw [hids, hkeys0]) (fun _ => rfl)
            refine ⟨s2, ?_, ?_⟩
            · simp only [dtFold, hstep]
              exact hrun2
            · rw [hkeys2, hkeys0, hhd]
          | none =>
            have hstep : dtStep s l = Except.ok s := by simp [dtStep, hm, ht, hd0, hc, hv]
            obtain ⟨s2, hrun2, hkeys2⟩ := ih ids s hwf2 hids hdev
            exact ⟨s2, by simp only [dtFold, hstep]; exact hrun2, by rw [hkeys2, hhd]⟩
        · have hstep : dtStep s l = Except.ok s := by simp [dtStep, hm, ht, hd0, hc]
          obtain ⟨s2, hrun2, hkeys2⟩ := ih ids s hwf2 hids hdev
          exact ⟨s2, by simp only [dtFold, hstep]; exact hrun2, by rw [hkeys2, hhd]⟩
      · simp only [wfFrom, hm, ht, Bool.false_eq_true, if_false] at hwf
        have hstep : dtStep s l = Except.ok s :=
          dtStep_noop s l (by simpa using hm) (by simpa using ht)
        have hhd : headerIdsOf (l :: ls) = headerIdsOf ls := by
          simp [headerIdsOf, lineHeaderId, hm]
        obtain ⟨s2, hrun2, hkeys2⟩ := ih ids s hwf hids hdev
        exact ⟨s2, by simp only [dtFold, hstep]; exact hrun2, by rw [hkeys2, hhd]⟩

theorem alookup_fanLineAux_notmem (ns : List String) (m : List (String × Nat)) (l c : String)
    (hc : c ∉ ns) : alookup (fanLineAux ns m l) c = alookup m c := by
  induction ns generalizing m with
  | nil => rfl
  | cons n ns ih =>
    have hcn : c ≠ n := fun he => hc (by simp [he])
    simp only [fanLineAux]
    rw [ih _ fun he => hc (List.mem_cons_of_mem _ he)]
    by_cases hp : pyContains l n
    · cases hv : firstDigitRun l with
      | some v => simp [hp, hv, alookup_setKey_ne _ _ _ _ hcn]
      | none => simp [hp, hv]
    · simp [hp]

theorem alookup_fanLineAux_mem (ns : List String) (m : List (String × Nat)) (l c : String)
    (hc : c ∈ ns) (hnd : ns.Nodup) :
    alookup (fanLineAux ns m l) c = (lineVal c l).or (alookup m c) := by
  induction ns generalizing m with
  | nil => cases hc
  | cons n ns ih =>
    rcases List.mem_cons.mp hc with rfl | hc2
    · have hcns : c ∉ ns := (List.nodup_cons.mp hnd).1
      simp only [fanLineAux]
      rw [alookup_fanLineAux_notmem ns _ l c hcns]
      by_cases hp : pyContains l c
      · cases hv : firstDigitRun l with
        | some v => simp [hp, hv, lineVal, alookup_setKey_self]
        | none => simp [hp, hv, lineVal]
      · simp [hp, lineVal]
    · have hne : c ≠ n := fun he => (List.nodup_cons.mp hnd).1 (he ▸ hc2)
      simp only [fanLineAux]
      rw [ih _ hc2 (List.nodup_cons.mp hnd).2]
      by_cases hp : pyContains l n
      · cases hv : firstDigitRun l with
        | some v => simp [hp, hv, alookup_setKey_ne _ _ _ _ hne]
        | none => simp [hp, hv]
      · simp [hp]

theorem alookup_fanLine (m : List (String × Nat)) (l c : String) (hc : c ∈ fanNames) :
    alookup (fanLine m l) c = (lineVal c l).or (alookup m c) :=
  alookup_fanLineAux_mem fanNames m l c hc (by decide)

theorem getLast?_cons_or {α : Type} (x : α) (xs : List α) :
    (x :: xs).getLast? = xs.getLast?.or (some x) := by
  induction xs generalizing x with
  | nil => simp
  | cons y ys ih =>
    rw [List.getLast?_cons_cons, ih y]
    cases hys : ys.getLast? <;> simp

theorem alookup_fanFold (ls : List String) (m : List (String × Nat)) (c : String)
    (hc : c ∈ fanNames) :
    alookup (fanFold m ls) c = ((ls.filterMap (lineVal c)).getLast?).or (alookup m c) := by
  induction ls generalizing m with
  | nil => simp [fanFold]
  | cons l ls ih =>
    simp only [fanFold]
    rw [ih (fanLine m l), alookup_fanLine m l c hc, List.filterMap_cons]
    cases hv : lineVal c l with
    | none => simp
    | some v => rw [getLast?_cons_or, Option.or_assoc]

theorem fan_keys_aux (ns : List String) (m : List (String × Nat)) (l : String)
    (hns : ∀ n ∈ ns, n ∈ fanNames) (hm : ∀ k v, (k, v) ∈ m → k ∈ fanNames) :
    ∀ k v, (k, v) ∈ fanLineAux ns m l → k ∈ fanNames := by
  induction ns generalizing m with
  | nil => exact hm
  | cons n ns ih =>
    intro k v hk
    refine ih _ (fun x hx => hns x (by simp [hx])) ?_ k v hk
    intro k2 v2 hk2
    by_cases hp : pyContains l n
    · cases hv : firstDigitRun l with
      | some v3 =>
        simp only [hp, hv, if_true] at hk2
        rcases mem_of_mem_setKey hk2 with h | h
        · exact hm _ _ h
        · exact h ▸ hns n (by simp)
      | none =>
        simp only [hp, hv, if_true] at hk2
        exact hm _ _ hk2
    · simp only [hp, Bool.false_eq_true, if_false] at hk2
      exact hm _ _ hk2

theorem fanFold_keys (ls : List String) (m : List (String × Nat))
    (hm : ∀ k v, (k, v) ∈ m → k ∈ fanNames) :
    ∀ k v, (k, v) ∈ fanFold m ls → k ∈ fanNames := by
  induction ls generalizing m with
  | nil => exact hm
  | cons l ls ih =>
    simp only [fanFold]
    exact ih _ (fan_keys_aux fanNames m l (fun n hn => hn) hm)

/-- C1: the snapshot capture is claimed never to raise, but on a drive dump
whose `temp1:` line precedes every `drivetemp-scsi` header the scan reads
the unbound `device_id` local and the resulting `UnboundLocalError` escapes
`log_status` — here evaluated on such a dump with all other sources
healthy. -/
theorem log_status_orphan_temp_line_raises :
    log_status sensorJan1 dateJan1 (RawResult.ok tempLine41) (RawResult.ok "45000")
      RawResult.notFound true emptyFS = Except.error PyErr.nameError := rfl

/-- C2: a `temp1:` line appearing before any `drivetemp-scsi` header is
claimed to be ignored without throwing, but the drive parser evaluates the
unbound `device_id` local on that line and raises `UnboundLocalError`
instead of returning a mapping. -/
theorem drive_orphan_temp_line_raises :
    parseDriveText tempLine41 = Except.error PyErr.nameError := rfl

/-- C3 counterexample: on a successful tool run that matches zero channels
(`ipmitool sdr` returned text without any recognized fan name) the result
is `none`, not the empty mapping the claim requires for that case, so
`none` does not characterise reader failure. -/
theorem fan_empty_mapping_counterexample :
    get_fan_status (RawResult.ok "") = none ∧ get_fan_status (RawResult.ok "") ≠ some [] := by
  refine ⟨rfl, ?_⟩
  intro hcontra
  rw [show get_fan_status (RawResult.ok "") = none from rfl] at hcontra
  exact Option.noConfusion hcontra

/-- C3 amended: `fans` is `none` exactly when the tool failed, timed out,
or ran successfully but matched zero recognized channels; an empty mapping
is never returned, the zero-match case being collapsed into `none`. -/
theorem fan_unavailable_collapse :
    (∀ t : String,
      get_fan_status (RawResult.ok t) = none ↔ fanFold [] (pySplit t '\n') = []) ∧
    get_fan_status RawResult.timeout = none ∧
    get_fan_status RawResult.notFound = none ∧
    (∀ (r : RawResult) (m : List (String × Nat)), get_fan_status r = some m → m ≠ []) := by
  refine ⟨?_, rfl, rfl, ?_⟩
  · intro t
    by_cases h0 : fanFold [] (pySplit t '\n') = [] <;> simp [get_fan_status, h0]
  · intro r m hm
    cases r with
    | ok t =>
      by_cases h0 : fanFold [] (pySplit t '\n') = []
      · simp [get_fan_status, h0] at hm
      · simp only [get_fan_status, h0, if_false] at hm
        rw [Option.some_inj] at hm
        exact hm ▸ h0
    | timeout => simp [get_fan_status] at hm
    | notFound => simp [get_fan_status] at hm

/-- Witness for C3's amended theorem: a successful run whose output contains
no recognized channel collapses to `none`. -/
theorem fan_unavailable_collapse_witness :
    get_fan_status (RawResult.ok "no recognized channels here") = none :=
  (fan_unavailable_collapse.1 "no recognized channels here").mpr (by decide)

/-- C5 counterexample: a `FileNotFoundError` reader failure is not absorbed
by `get_cpu_temperature` (its `except` tuple lists only `TimeoutExpired`
and `ValueError`), so the result on that failure is an exception, not the
`none` the claim requires for every reader failure. -/
theorem cpu_reader_notfound_counterexample :
    get_cpu_temperature RawResult.notFound = Except.error PyErr.fileNotFound ∧
    get_cpu_temperature RawResult.notFound ≠ Except.ok none := by
  refine ⟨rfl, ?_⟩
  intro hcontra
  rw [show get_cpu_temperature RawResult.notFound = Except.error PyErr.fileNotFound
    from rfl] at hcontra
  exact Except.noConfusion hcontra

/-- C5 amended: when the stripped first line parses as a millidegree
integer `N` the CPU temperature is `N / 1000.0`; a non-numeric or empty
first line yields `none`, and so does a reader timeout; a not-found reader
failure, however, raises `FileNotFoundError` instead of yielding `none`. -/
theorem cpu_temperature_parse :
    (∀ (t : String) (n : Int),
      pyIntOf (pyStrip ((pySplit t '\n').headD "")) = some n →
      get_cpu_temperature (RawResult.ok t) = Except.ok (some ((n : ℚ) / 1000))) ∧
    (∀ t : String, pyIntOf (pyStrip ((pySplit t '\n').headD "")) = none →
      get_cpu_temperature (RawResult.ok t) = Except.ok none) ∧
    get_cpu_temperature RawResult.timeout = Except.ok none ∧
    get_cpu_temperature RawResult.notFound = Except.error PyErr.fileNotFound := by
  refine ⟨?_, ?_, rfl, rfl⟩
  · intro t n hn
    have hne : pyStrip ((pySplit t '\n').headD "") ≠ "" := by
      intro he
      rw [he, show pyIntOf "" = none from rfl] at hn
      exact Option.noConfusion hn
    simp only [List.headD_eq_head?_getD] at hn hne
    simp [get_cpu_temperature, hne, hn]
  · intro t hn
    simp only [List.headD_eq_head?_getD] at hn
    by_cases he : pyStrip ((pySplit t '\n').head?.getD "") = ""
    · simp [get_cpu_temperature, he]
    · simp [get_cpu_temperature, he, hn]

/-- Witness for C5's amended theorem, on the spec's end-to-end scenario 3:
thermal-zone text `45000` yields 45.0 degrees. -/
theorem cpu_temperature_parse_witness :
    get_cpu_temperature (RawResult.ok "45000") = Except.ok (some (((45000 : Int) : ℚ) / 1000)) :=
  cpu_temperature_parse.1 "45000" 45000 rfl

/-- C4: for well-formed drive dumps every header line contributes exactly
one key, in order of appearance; a device whose header is followed by no
temperature line before the next header (or the end of the dump) maps to
`none`; and the spec's end-to-end scenario 1 — a header for `f0` followed
by the documented `temp1:` line — yields exactly the mapping
`f0 -> 41.0`. -/
theorem drive_wellformed_dump :
    (∀ ls : List String, wfFrom [] ls = true →
      ∃ m, dtParseLines ls = Except.ok m ∧ m.map Prod.fst = headerIdsOf ls) ∧
    (∀ (ls a b c : List String) (hdr d : String),
      ls = a ++ hdr :: (b ++ c) → wfFrom [] ls = true → lineHeaderId hdr = some d →
      (∀ l ∈ b, pyContains l "drivetemp-scsi" = false ∧ pyContains l "temp1:" = false) →
      (c = [] ∨ ∃ h2 c2, c = h2 :: c2 ∧ pyContains h2 "drivetemp-scsi" = true) →
      ∃ m, dtParseLines ls = Except.ok m ∧ alookup m d = some none) ∧
    parseDriveText scenario1Text = Except.ok [("f0", some (41 : ℚ))] := by
  refine ⟨?_, ?_, ?_⟩
  · intro ls hwf
    obtain ⟨s2, hrun, hkeys⟩ := dtFold_wf_run ls [] ⟨[], none⟩ hwf (by simp) (by simp)
    refine ⟨s2.temps, ?_, ?_⟩
    · simp [dtParseLines, hrun]
    · simpa using hkeys
  · intro ls a b c hdr d hls hwf hh hb hc
    have hm2 : pyContains hdr "drivetemp-scsi" = true := by
      by_cases hx : pyContains hdr "drivetemp-scsi"
      · exact hx
      · simp [lineHeaderId, hx] at hh
    have hp2 : 3 ≤ (pySplit hdr '-').length := by
      by_cases hx : 3 ≤ (pySplit hdr '-').length
      · exact hx
      · simp [lineHeaderId, hm2, hx] at hh
    have hdid : (pySplit hdr '-').getLast?.getD "" = d := by
      simpa [lineHeaderId, hm2, hp2, List.getLastD_eq_getLast?] using hh
    subst hls
    obtain ⟨sf, hrun, _⟩ := dtFold_wf_run _ [] ⟨[], none⟩ hwf (by simp) (by simp)
    refine ⟨sf.temps, by simp [dtParseLines, hrun], ?_⟩
    rw [dtFold_append] at hrun
    cases hra : dtFold ⟨[], none⟩ a with
    | error e => rw [hra] at hrun; cases hrun
    | ok sa =>
      rw [hra] at hrun
      have hstep : dtStep sa hdr = Except.ok ⟨setKey sa.temps d none, some d⟩ := by
        simp [dtStep, hm2, hp2, List.getLastD_eq_getLast?, hdid]
      simp only [dtFold, hstep] at hrun
      rw [dtFold_append, dtFold_noop b ⟨setKey sa.temps d none, some d⟩ hb] at hrun
      have hlook : alookup (setKey sa.temps d none) d = some none := alookup_setKey_self _ _ _
      rcases hc with rfl | ⟨h2, c2, rfl, hmark2⟩
      · simp only [dtFold] at hrun
        cases hrun
        exact hlook
      · have hsplit2 : a ++ hdr :: (b ++ h2 :: c2) = (a ++ hdr :: b) ++ (h2 :: c2) := by
          simp
        rw [hsplit2, wfFrom_append, Bool.and_eq_true] at hwf
        obtain ⟨hwfx, hwfc⟩ := hwf
        have hacc : accIds [] (a ++ hdr :: b) = d :: accIds [] a := by
          rw [accIds_append]
          simp only [accIds, hm2, if_true, List.getLastD_eq_getLast?, hdid]
          exact accIds_no_marker b _ (fun l hl => (hb l hl).1)
        rw [hacc] at hwfc
        simp only [wfFrom, hmark2, if_true, Bool.and_eq_true, decide_eq_true_eq,
          List.getLastD_eq_getLast?] at hwfc
        obtain ⟨⟨⟨hp3, hne3⟩, hmem3⟩, hwf3⟩ := hwfc
        have hid2 : (pySplit h2 '-').getLast?.getD "" ≠ d := by
          intro he
          exact hmem3 (he ▸ List.mem_cons_self _ _)
        have hstep2 : dtStep ⟨setKey sa.temps d none, some d⟩ h2 =
            Except.ok ⟨setKey (setKey sa.temps d none) ((pySplit h2 '-').getLast?.getD "") none,
              some ((pySplit h2 '-').getLast?.getD "")⟩ := by
          simp [dtStep, hmark2, hp3, List.getLastD_eq_getLast?]
        simp only [dtFold, hstep2] at hrun
        have hfrozen := dtFold_frozen c2 _ sf d hrun (by simp [hid2])
          (by
            intro l hl hcontra
            exact (wfFrom_fresh c2 _ hwf3 l hl d hcontra)
              (List.mem_cons_of_mem _ (List.mem_cons_self _ _)))
        rw [hfrozen.1, alookup_setKey_ne _ _ _ _ (Ne.symm hid2)]
        exact hlook
  · have h41 : (natOfDigits ['4', '1'] : ℕ) = 41 := rfl
    have h0 : (natOfDigits ['0'] : ℕ) = 0 := rfl
    rw [show parseDriveText scenario1Text = Except.ok
      [("f0", some (((natOfDigits ['4', '1'] : ℕ) : ℚ) +
        ((natOfDigits ['0'] : ℕ) : ℚ) / (10 : ℚ) ^ (1 : ℕ)))] from rfl, h41, h0]
    norm_num

/-- Witness for C4: a dump with one header and one irrelevant line is
well-formed, produces exactly the key `f0`, and maps it to `none`. -/
theorem drive_wellformed_dump_witness :
    (∃ m, dtParseLines ["drivetemp-scsi-0-f0", "x"] = Except.ok m ∧
      m.map Prod.fst = headerIdsOf ["drivetemp-scsi-0-f0", "x"]) ∧
    (∃ m, dtParseLines ["drivetemp-scsi-0-f0", "x"] = Except.ok m ∧
      alookup m "f0" = some none) := by
  refine ⟨drive_wellformed_dump.1 ["drivetemp-scsi-0-f0", "x"] (by decide), ?_⟩
  exact drive_wellformed_dump.2.1 ["drivetemp-scsi-0-f0", "x"] [] ["x"] []
    "drivetemp-scsi-0-f0" "f0" rfl (by decide) (by decide) (by decide) (Or.inl rfl)

theorem log_status_run_true (sensor : TrueNASSensor) (now : PyDateTime)
    (drive cpu fan : RawResult) (fs : FS) (dt : List (String × Option ℚ)) (ct : Option ℚ)
    (h1 : get_drive_temperatures drive = Except.ok dt)
    (h2 : get_cpu_temperature cpu = Except.ok ct) :
    log_status sensor now drive cpu fan true fs =
      Except.ok ⟨⟨pyIsoformat now, dt, ct, get_fan_status fan⟩,
        appendFS fs sensor.log_file
          (serializeSnapshot ⟨pyIsoformat now, dt, ct, get_fan_status fan⟩), []⟩ := by
  simp [log_status, h1, h2]

theorem log_status_run_false (sensor : TrueNASSensor) (now : PyDateTime)
    (drive cpu fan : RawResult) (fs : FS) (dt : List (String × Option ℚ)) (ct : Option ℚ)
    (h1 : get_drive_temperatures drive = Except.ok dt)
    (h2 : get_cpu_temperature cpu = Except.ok ct) :
    log_status sensor now drive cpu fan false fs =
      Except.ok ⟨⟨pyIsoformat now, dt, ct, get_fan_status fan⟩, fs, [writeWarningMsg]⟩ := by
  simp [log_status, h1, h2]

/-- C6 counterexample: a sensor constructed on 2024-01-01 logs a snapshot
whose own timestamp is on 2024-01-02 into `fan_monitor_20240101.log`, not
into the `fan_monitor_20240102.log` file named after the snapshot's
timestamp date — the file date is frozen at construction time. -/
theorem log_file_date_counterexample :
    sensorJan1.log_file = "/var/log/fan_control/fan_monitor_20240101.log" ∧
    ∃ r, log_status sensorJan1 dateJan2Noon (RawResult.ok "") (RawResult.ok "")
        RawResult.notFound true emptyFS = Except.ok r ∧
      r.status.timestamp = "2024-01-02T12:00:00" ∧
      r.fs "/var/log/fan_control/fan_monitor_20240102.log" = [] ∧
      r.fs "/var/log/fan_control/fan_monitor_20240101.log" = [serializeSnapshot r.status] := by
  refine ⟨by decide, ⟨_, rfl, by decide, by decide, by decide⟩⟩

/-- C6 amended: the log path is `logDirectory/fan_monitor_<YYYYMMDD>.log`
with the date taken from the wall clock at `TrueNASSensor` construction,
not from the snapshot timestamp; every poll of one sensor instance appends
to that single file in order, never truncating prior lines and touching no
other path, and sensors constructed on different dates use different
files. -/
theorem log_path_from_construction_date :
    (∀ (dir : String) (d : PyDateTime),
      (mkSensor dir d).log_file = dir ++ "/fan_monitor_" ++ strftimeYmd d ++ ".log") ∧
    (∀ (sensor : TrueNASSensor) (now1 now2 : PyDateTime) (d1 c1 f1 d2 c2 f2 : RawResult)
      (fs : FS) (dt1 dt2 : List (String × Option ℚ)) (ct1 ct2 : Option ℚ),
      get_drive_temperatures d1 = Except.ok dt1 → get_cpu_temperature c1 = Except.ok ct1 →
      get_drive_temperatures d2 = Except.ok dt2 → get_cpu_temperature c2 = Except.ok ct2 →
      ∃ r1 r2, log_status sensor now1 d1 c1 f1 true fs = Except.ok r1 ∧
        log_status sensor now2 d2 c2 f2 true r1.fs = Except.ok r2 ∧
        r2.fs sensor.log_file = fs sensor.log_file ++
          [serializeSnapshot r1.status, serializeSnapshot r2.status] ∧
        (∀ p, p ≠ sensor.log_file → r2.fs p = fs p)) ∧
    (∀ (dir : String) (d1 d2 : PyDateTime), strftimeYmd d1 ≠ strftimeYmd d2 →
      (mkSensor dir d1).log_file ≠ (mkSensor dir d2).log_file) := by
  refine ⟨fun dir d => rfl, ?_, ?_⟩
  · intro sensor now1 now2 d1 c1 f1 d2 c2 f2 fs dt1 dt2 ct1 ct2 h1 h2 h3 h4
    have h5 := log_status_run_true sensor now1 d1 c1 f1 fs dt1 ct1 h1 h2
    have h6 := log_status_run_true sensor now2 d2 c2 f2
      (appendFS fs sensor.log_file
        (serializeSnapshot ⟨pyIsoformat now1, dt1, ct1, get_fan_status f1⟩))
      dt2 ct2 h3 h4
    refine ⟨_, _, h5, h6, ?_, ?_⟩
    · simp [appendFS]
    · intro p hp
      simp [appendFS, hp]
  · intro dir d1 d2 hne heq
    apply hne
    have hd := congrArg String.data heq
    simp only [mkSensor, String.data_append, List.append_assoc] at hd
    have h2 := List.append_cancel_left hd
    have h3 := List.append_cancel_left h2
    have h4 := List.append_cancel_right h3
    exact String.ext h4

/-- Witness for C6's amended theorem: two polls of the 2024-01-01 sensor,
on 2024-01-01 and 2024-01-02, append their two records in order to the one
construction-dated file, and sensors built on the two dates get different
files. -/
theorem log_path_from_construction_date_witness :
    (∃ r1 r2, log_status sensorJan1 dateJan1 (RawResult.ok "") (RawResult.ok "45000")
        RawResult.notFound true emptyFS = Except.ok r1 ∧
      log_status sensorJan1 dateJan2Noon (RawResult.ok "") (RawResult.ok "45000")
        RawResult.notFound true r1.fs = Except.ok r2 ∧
      r2.fs sensorJan1.log_file = emptyFS sensorJan1.log_file ++
        [serializeSnapshot r1.status, serializeSnapshot r2.status] ∧
      (∀ p, p ≠ sensorJan1.log_file → r2.fs p = emptyFS p)) ∧
    (mkSensor "/var/log/fan_control" dateJan1).log_file ≠
      (mkSensor "/var/log/fan_control" dateJan2Noon).log_file := by
  constructor
  · exact log_path_from_construction_date.2.1 sensorJan1 dateJan1 dateJan2Noon
      (RawResult.ok "") (RawResult.ok "45000") RawResult.notFound
      (RawResult.ok "") (RawResult.ok "45000") RawResult.notFound
      emptyFS [] [] (some (((45000 : Int) : ℚ) / 1000)) (some (((45000 : Int) : ℚ) / 1000))
      rfl rfl rfl rfl
  · exact log_path_from_construction_date.2.2 "/var/log/fan_control" dateJan1 dateJan2Noon
      (by decide)

/-- C7: when the getters return (no exception escaped them), an I/O failure
of the log append is caught: `log_status` still returns the very snapshot
it would have returned on a successful write, reports the failure as a
stderr warning, leaves the file system untouched, and does not abort the
poll. -/
theorem log_write_failure_reported (sensor : TrueNASSensor) (now : PyDateTime)
    (drive cpu fan : RawResult) (fs : FS) (dt : List (String × Option ℚ)) (ct : Option ℚ)
    (h1 : get_drive_temperatures drive = Except.ok dt)
    (h2 : get_cpu_temperature cpu = Except.ok ct) :
    log_status sensor now drive cpu fan false fs =
      Except.ok ⟨⟨pyIsoformat now, dt, ct, get_fan_status fan⟩, fs, [writeWarningMsg]⟩ ∧
    log_status sensor now drive cpu fan true fs =
      Except.ok ⟨⟨pyIsoformat now, dt, ct, get_fan_status fan⟩,
        appendFS fs sensor.log_file
          (serializeSnapshot ⟨pyIsoformat now, dt, ct, get_fan_status fan⟩), []⟩ :=
  ⟨log_status_run_false sensor now drive cpu fan fs dt ct h1 h2,
    log_status_run_true sensor now drive cpu fan fs dt ct h1 h2⟩

/-- Witness for C7: a failed write still yields the completed snapshot of a
healthy poll plus the warning, with the file system unchanged. -/
theorem log_write_failure_reported_witness :
    log_status sensorJan1 dateJan1 (RawResult.ok "") (RawResult.ok "45000") RawResult.notFound
        false emptyFS =
      Except.ok ⟨⟨pyIsoformat dateJan1, [], some (((45000 : Int) : ℚ) / 1000),
        get_fan_status RawResult.notFound⟩, emptyFS, [writeWarningMsg]⟩ :=
  (log_write_failure_reported sensorJan1 dateJan1 (RawResult.ok "") (RawResult.ok "45000")
    RawResult.notFound emptyFS [] (some (((45000 : Int) : ℚ) / 1000)) rfl rfl).1

/-- C8: when a recognized channel name occurs on several lines that each
carry a 3–5 digit run, the channel's reported RPM is the first digit run of
the last such line — later lines overwrite earlier ones. -/
theorem fan_last_match_wins (t c : String) (v : Nat) (pre post : List String) (lastL : String)
    (hc : c ∈ fanNames)
    (hsplit : pySplit t '\n' = pre ++ lastL :: post)
    (hpre : ∃ l ∈ pre, pyContains l c = true ∧ (firstDigitRun l).isSome)
    (hlast : pyContains lastL c = true ∧ firstDigitRun lastL = some v)
    (hpost : ∀ l ∈ post, pyContains l c = false ∨ firstDigitRun l = none) :
    ∃ m, get_fan_status (RawResult.ok t) = some m ∧ alookup m c = some v := by
  have hlook : alookup (fanFold [] (pySplit t '\n')) c = some v := by
    rw [alookup_fanFold _ _ _ hc, hsplit, List.filterMap_append]
    have hcons : (lastL :: post).filterMap (lineVal c) = [v] := by
      have hpostnil : post.filterMap (lineVal c) = [] := by
        rw [List.filterMap_eq_nil_iff]
        intro l hl
        rcases hpost l hl with h | h
        · simp [lineVal, h]
        · simp [lineVal, h]
      have hlv : lineVal c lastL = some v := by simp [lineVal, hlast.1, hlast.2]
      simp [List.filterMap_cons, hlv, hpostnil]
    rw [hcons, List.getLast?_concat]
    rfl
  have hne : fanFold [] (pySplit t '\n') ≠ [] := by
    intro h0
    rw [h0] at hlook
    exact Option.noConfusion hlook
  refine ⟨fanFold [] (pySplit t '\n'), ?_, hlook⟩
  simp [get_fan_status, hne]

/-- Witness for C8: `FAN1` appears on two digit-bearing lines; the RPM kept
is 1200, parsed from the later line. -/
theorem fan_last_match_wins_witness :
    ∃ m, get_fan_status (RawResult.ok "FAN1 | 300 RPM\nFAN1 | 1200 RPM") = some m ∧
      alookup m "FAN1" = some 1200 := by
  refine fan_last_match_wins "FAN1 | 300 RPM\nFAN1 | 1200 RPM" "FAN1" 1200
    ["FAN1 | 300 RPM"] [] "FAN1 | 1200 RPM" (by decide) (by decide) ?_ (by decide) (by decide)
  exact ⟨"FAN1 | 300 RPM", by decide, by decide, by decide⟩

/-- C9: whenever the fan reader produces a mapping at all, that mapping is
non-empty and keyed exclusively by the six recognized channel names. -/
theorem fan_mapping_nonempty_recognized (r : RawResult) (m : List (String × Nat))
    (h : get_fan_status r = some m) :
    m ≠ [] ∧ ∀ k v, (k, v) ∈ m → k ∈ fanNames := by
  cases r with
  | ok t =>
    by_cases h0 : fanFold [] (pySplit t '\n') = []
    · simp [get_fan_status, h0] at h
    · simp only [get_fan_status, h0, if_false] at h
      rw [Option.some_inj] at h
      subst h
      exact ⟨h0, fanFold_keys _ _ fun k v hk => absurd hk (List.not_mem_nil _)⟩
  | timeout => simp [get_fan_status] at h
  | notFound => simp [get_fan_status] at h

/-- Witness for C9, on a one-channel reading. -/
theorem fan_mapping_nonempty_recognized_witness :
    ([("FAN1", 300)] : List (String × Nat)) ≠ [] ∧
    ∀ k v, (k, v) ∈ ([("FAN1", 300)] : List (String × Nat)) → k ∈ fanNames :=
  fan_mapping_nonempty_recognized (RawResult.ok "FAN1 | 300 RPM") [("FAN1", 300)] (by decide)

/-- C10: a line containing the `drivetemp-scsi` marker that splits into
fewer than three hyphen-delimited parts is a complete no-op — no key is
added and the device cursor is unchanged — so a following `temp1:` line is
still attributed to the previously established device. -/
theorem short_header_line_noop (s : DTState) (l : String)
    (h1 : pyContains l "drivetemp-scsi" = true) (h2 : (pySplit l '-').length < 3) :
    dtStep s l = Except.ok s ∧
    ∀ (d tl : String) (v : ℚ), s.device = some d → d ≠ "" → (alookup s.temps d).isSome →
      pyContains tl "drivetemp-scsi" = false → pyContains tl "temp1:" = true →
      parseTempValue tl = some v →
      dtFold s [l, tl] = Except.ok ⟨setKey s.temps d (some v), some d⟩ := by
  have hnp : ¬ 3 ≤ (pySplit l '-').length := by omega
  have hstep1 : dtStep s l = Except.ok s := by simp [dtStep, h1, hnp]
  refine ⟨hstep1, ?_⟩
  intro d tl v hdev hne hsome hm ht hv
  have hstep2 : dtStep s tl = Except.ok ⟨setKey s.temps d (some v), some d⟩ := by
    simp [dtStep, hm, ht, hdev, hne, hsome, hv]
  simp [dtFold, hstep1, hstep2]

/-- Witness for C10: the bare marker line `drivetemp-scsi` (two parts) is a
no-op, and the following `temp1:` line still updates the device `f0`
established before it. -/
theorem short_header_line_noop_witness :
    dtStep ⟨[("f0", none)], some "f0"⟩ "drivetemp-scsi" =
      Except.ok ⟨[("f0", none)], some "f0"⟩ ∧
    dtFold ⟨[("f0", none)], some "f0"⟩ ["drivetemp-scsi", "temp1: +41°C"] =
      Except.ok ⟨setKey [("f0", none)] "f0" (some ((41 : ℕ) : ℚ)), some "f0"⟩ := by
  have h := short_header_line_noop ⟨[("f0", none)], some "f0"⟩ "drivetemp-scsi"
    (by decide) (by decide)
  exact ⟨h.1, h.2 "f0" "temp1: +41°C" ((41 : ℕ) : ℚ) rfl (by decide) (by decide)
    (by decide) (by decide) rfl⟩
